import Mathlib

/-!
# Verification of the resume AI-detection scoring engine

Shallow embedding of `src/services/geminiService.ts` (`analyzeResume`).
JavaScript numbers are modelled as exact real numbers; the two
`Math.random()` draws are threaded as explicit parameters `r1` (the score
jitter, line 63 of the source) and `r2` (the perplexity jitter, line 88),
each ranging over `[0, 1)` as `Math.random` does.  String processing is
modelled character-exactly on `List Char`.
-/

namespace ResumeAI

/-- Sentence terminators of the regex `[^.!?]+[.!?]+`. -/
def isTerminator (c : Char) : Bool := c = '.' || c = '!' || c = '?'

/-- The `\w` character class of the regex `\b\w+\b`: ASCII alphanumerics
and underscore. -/
def isWordChar (c : Char) : Bool := c.isAlphanum || c = '_'

/-- Maximal runs of characters satisfying `p`, in order: the semantics of a
global match of `p+`-runs.  Structural fuel; `fuel = cs.length` always
suffices since each emitted run consumes at least one character. -/
def tokenizeAux (p : Char → Bool) : Nat → List Char → List (List Char)
  | 0, _ => []
  | fuel + 1, cs =>
    let rest := cs.dropWhile (fun c => !p c)
    if rest.isEmpty then []
    else rest.takeWhile p :: tokenizeAux p fuel (rest.dropWhile p)

def tokens (p : Char → Bool) (cs : List Char) : List (List Char) :=
  tokenizeAux p cs.length cs

/-- Semantics of the global regex `[^.!?]+[.!?]+`: leftmost-first matches,
each a maximal run of non-terminators together with the terminator run
that follows it.  Text before the first non-terminator, and a trailing
unterminated run, belong to no match. -/
def sentencesAux : Nat → List Char → List (List Char)
  | 0, _ => []
  | fuel + 1, cs =>
    let rest := cs.dropWhile isTerminator
    let body := rest.takeWhile (fun c => !isTerminator c)
    let rest2 := rest.dropWhile (fun c => !isTerminator c)
    let terms := rest2.takeWhile isTerminator
    if terms.isEmpty then []
    else (body ++ terms) :: sentencesAux fuel (rest2.dropWhile isTerminator)

/-- `text.match(/[^.!?]+[.!?]+/g)` — the raw match list (empty when the
regex matches nowhere, which is when JavaScript returns `null`). -/
def sentencesList (t : String) : List String :=
  (sentencesAux t.data.length t.data).map String.mk

/-- `const sentences = text.match(/[^.!?]+[.!?]+/g) || [text];` -/
def sentences (t : String) : List String :=
  if sentencesList t = [] then [t] else sentencesList t

/-- `cleanText.match(/\b\w+\b/g) || []` on `cleanText = text.toLowerCase()`:
word tokens are the maximal `\w`-runs of the lowercased text. -/
def words (t : String) : List String :=
  (tokens isWordChar (t.data.map Char.toLower)).map String.mk

/-- `String.prototype.trim`: strip leading and trailing whitespace. -/
def trimChars (cs : List Char) : List Char :=
  ((cs.dropWhile Char.isWhitespace).reverse.dropWhile Char.isWhitespace).reverse

/-- `s.trim().split(/\s+/).length`: for an empty trimmed string the JS
split yields `[""]` (length 1); otherwise it yields the maximal
non-whitespace runs. -/
def sentenceWordCount (s : String) : Nat :=
  let cs := trimChars s.data
  if cs = [] then 1 else (tokens (fun c => !c.isWhitespace) cs).length

/-- `const sentenceLengths = sentences.map(s => s.trim().split(/\s+/).length);` -/
def sentenceLengths (t : String) : List Nat :=
  (sentences t).map sentenceWordCount

/-- `sentenceLengths.length || 1` as a rational denominator. -/
def lengthsDenom (t : String) : ℚ :=
  if (sentenceLengths t).length = 0 then 1 else ((sentenceLengths t).length : ℚ)

/-- `const avgLen = sentenceLengths.reduce((a,b) => a+b, 0) / (sentenceLengths.length || 1);` -/
def avgLen (t : String) : ℚ :=
  ((sentenceLengths t).sum : ℚ) / lengthsDenom t

/-- `const variance = sentenceLengths.reduce((a,b) => a + Math.pow(b - avgLen, 2), 0) / (sentenceLengths.length || 1);` -/
def sentenceVariance (t : String) : ℚ :=
  ((sentenceLengths t).map (fun l => ((l : ℚ) - avgLen t) ^ 2)).sum / lengthsDenom t

/-- `const stdDev = Math.sqrt(variance);` -/
noncomputable def stdDev (t : String) : ℝ :=
  Real.sqrt ((sentenceVariance t : ℚ) : ℝ)

/-- `const burstinessScore = Math.min(100, Math.max(0, stdDev * 8));` -/
noncomputable def burstinessVal (t : String) : ℝ :=
  min 100 (max 0 (stdDev t * 8))

/-- `new Set(words).size`. -/
def uniqueWordCount (t : String) : Nat := (words t).dedup.length

/-- `const ttr = words.length > 0 ? uniqueWords.size / words.length : 0;` -/
def ttr (t : String) : ℚ :=
  if (words t).length > 0 then (uniqueWordCount t : ℚ) / ((words t).length : ℚ) else 0

/-- `const vocabScore = Math.min(100, Math.max(0, ttr * 160));` -/
def vocabScore (t : String) : ℚ :=
  min 100 (max 0 (ttr t * 160))

/-- The fixed `aiMarkers` list, verbatim from the source. -/
def aiMarkers : List String :=
  ["spearheaded", "orchestrated", "leveraged", "utilized", "seamlessly",
   "pivotal", "transformative", "robust", "paradigm", "synergy",
   "demonstrated", "proven track record", "dynamic", "meticulous",
   "navigated", "fostered", "results-driven", "visionary"]

/-- `const markerCount = words.filter(w => aiMarkers.includes(w)).length;` -/
def markerCount (t : String) : Nat :=
  ((words t).filter (fun w => decide (w ∈ aiMarkers))).length

/-- `const markerDensity = words.length > 0 ? markerCount / words.length : 0;` -/
def markerDensity (t : String) : ℚ :=
  if (words t).length > 0 then (markerCount t : ℚ) / ((words t).length : ℚ) else 0

/-- Lines 56-66 of the source: base 50, the three weighted feature terms,
the jitter `Math.random() * 10 - 5`, then `Math.max(5, Math.min(98, ·))`. -/
noncomputable def aiScore (t : String) (r1 : ℝ) : ℝ :=
  max 5 (min 98
    (50 + (12 - stdDev t) * 3 + (0.55 - (ttr t : ℝ)) * 60
       + (markerDensity t : ℝ) * 800 + (r1 * 10 - 5)))

/-- `const isAi = aiScore > 55;` -/
noncomputable def isAi (t : String) (r1 : ℝ) : Bool :=
  decide (aiScore t r1 > 55)

/-- `const humanScore = 100 - aiScore;` -/
noncomputable def humanScore (t : String) (r1 : ℝ) : ℝ :=
  100 - aiScore t r1

/-- The dynamic flag list, lines 72-76 of the source. -/
noncomputable def flags (t : String) : List String :=
  let f1 : List String :=
    if stdDev t < 6 then ["Monotonic sentence structure (Low Burstiness)"] else []
  let f2 : List String :=
    if markerCount t > 2 then
      ["High density of buzzwords (" ++ toString (markerCount t) ++ " found)"] else []
  let f3 : List String :=
    if ttr t < 0.4 then ["Repetitive vocabulary usage"] else []
  let fs := f1 ++ f2 ++ f3
  if fs = [] then ["No significant AI anomalies detected"] else fs

/-- `Math.round`: half-up rounding (toward positive infinity on ties). -/
noncomputable def jsRound (x : ℝ) : ℤ := ⌊x + 1 / 2⌋

structure LinguisticAnalysis where
  perplexityScore : ℤ
  burstinessScore : ℤ
  vocabularyRichness : ℤ
  sentenceVariety : ℤ
deriving DecidableEq

structure AnalysisResult where
  isAiGenerated : Bool
  aiProbability : ℤ
  humanProbability : ℤ
  verdictHeadline : String
  summary : String
  linguisticAnalysis : LinguisticAnalysis
  flags : List String
  suggestions : List String
deriving DecidableEq

/-- The returned record, lines 78-96 of the source.  `r1` is the jitter
draw of line 63 and `r2` the perplexity draw of line 88. -/
noncomputable def analyzeResume (t : String) (r1 r2 : ℝ) : AnalysisResult where
  isAiGenerated := isAi t r1
  aiProbability := jsRound (aiScore t r1)
  humanProbability := jsRound (humanScore t r1)
  verdictHeadline :=
    if isAi t r1 then "Likely AI-Generated Pattern" else "Likely Human-Written"
  summary :=
    if isAi t r1 then
      "The text exhibits characteristic uniformity in sentence structure and a high frequency of generic professional keywords often associated with AI language models."
    else
      "The writing exhibits natural variance in sentence length and vocabulary usage, suggesting authentic human composition with a unique personal voice."
  linguisticAnalysis :=
    { perplexityScore := jsRound (humanScore t r1 * 0.8 + r2 * 20)
      burstinessScore := jsRound (burstinessVal t)
      vocabularyRichness := jsRound ((vocabScore t : ℚ) : ℝ)
      sentenceVariety := jsRound (min 100 (((sentenceVariance t : ℚ) : ℝ) * 2)) }
  flags := flags t
  suggestions :=
    if isAi t r1 then
      ["Vary your sentence lengths significantly",
       "Replace generic buzzwords (e.g., \x27leveraged\x27) with specific actions",
       "Add personal anecdotes or gritty details"]
    else
      ["Maintain this natural tone",
       "Ensure specific metrics are included to back up claims"]

/-- The spec's example input: 18 copies of the single buzzword
"leveraged", each followed by a period. -/
def buzzText : String := String.join (List.replicate 18 "leveraged.")

/-- Segmentation as the claim describes it: the maximal runs of
non-terminator characters each followed by one or more terminators, with
the whole text as the single sentence exactly when no terminator occurs
anywhere.  Stated for comparison with the code's `sentences`. -/
def specSegmentation (t : String) : List String :=
  if ∀ c ∈ t.data, ¬ isTerminator c = true then [t] else sentencesList t

/-- The 16 entries of `aiMarkers` that are single `\w`-tokens: everything
except the multi-word "proven track record" and the hyphenated
"results-driven". -/
def aiMarkersSingleToken : List String :=
  ["spearheaded", "orchestrated", "leveraged", "utilized", "seamlessly",
   "pivotal", "transformative", "robust", "paradigm", "synergy",
   "demonstrated", "dynamic", "meticulous",
   "navigated", "fostered", "visionary"]

/-- Every output field except the perplexity proxy: the part of the
result that does not consume the second random draw. -/
def coreOutput (R : AnalysisResult) :
    Bool × ℤ × ℤ × String × String × ℤ × ℤ × ℤ × List String × List String :=
  (R.isAiGenerated, R.aiProbability, R.humanProbability, R.verdictHeadline,
   R.summary, R.linguisticAnalysis.burstinessScore,
   R.linguisticAnalysis.vocabularyRichness,
   R.linguisticAnalysis.sentenceVariety, R.flags, R.suggestions)

/-! ## General helper lemmas -/

theorem lengthsDenom_pos (t : String) : 0 < lengthsDenom t := by
  unfold lengthsDenom
  split
  · norm_num
  · rename_i h
    exact_mod_cast Nat.pos_of_ne_zero h

theorem sentenceVariance_nonneg (t : String) : 0 ≤ sentenceVariance t := by
  unfold sentenceVariance
  apply div_nonneg _ (lengthsDenom_pos t).le
  apply List.sum_nonneg
  intro x hx
  simp only [List.mem_map] at hx
  obtain ⟨l, _, rfl⟩ := hx
  positivity

theorem stdDev_nonneg (t : String) : 0 ≤ stdDev t := Real.sqrt_nonneg _

theorem aiScore_ge (t : String) (r1 : ℝ) : 5 ≤ aiScore t r1 := le_max_left _ _

theorem aiScore_le (t : String) (r1 : ℝ) : aiScore t r1 ≤ 98 :=
  max_le (by norm_num) (min_le_left _ _)

theorem le_jsRound (a : ℤ) (x : ℝ) (h : (a : ℝ) - 1 / 2 ≤ x) : a ≤ jsRound x :=
  Int.le_floor.mpr (by linarith)

theorem jsRound_le (b : ℤ) (x : ℝ) (h : x < (b : ℝ) + 1 / 2) : jsRound x ≤ b := by
  have hlt : jsRound x < b + 1 := Int.floor_lt.mpr (by push_cast; linarith)
  omega

theorem jsRound_eq (n : ℤ) (x : ℝ) (h1 : (n : ℝ) - 1 / 2 ≤ x) (h2 : x < (n : ℝ) + 1 / 2) :
    jsRound x = n :=
  le_antisymm (jsRound_le n x h2) (le_jsRound n x h1)

theorem jsRound_add_jsRound_sub (a : ℝ) :
    jsRound a + jsRound (100 - a) = if Int.fract a = 1 / 2 then 101 else 100 := by
  have hsplit : a = (⌊a⌋ : ℝ) + Int.fract a := by rw [Int.floor_add_fract]
  set f := Int.fract a with hf
  have hf0 : 0 ≤ f := Int.fract_nonneg a
  have hf1 : f < 1 := Int.fract_lt_one a
  have e1 : jsRound a = ⌊f + 1 / 2⌋ + ⌊a⌋ := by
    unfold jsRound
    have harg : a + 1 / 2 = (f + 1 / 2) + (⌊a⌋ : ℤ) := by
      linarith [hsplit]
    rw [harg, Int.floor_add_int]
  have e2 : jsRound (100 - a) = ⌊1 / 2 - f⌋ + (100 - ⌊a⌋) := by
    unfold jsRound
    have harg : 100 - a + 1 / 2 = (1 / 2 - f) + ((100 - ⌊a⌋ : ℤ) : ℝ) := by
      push_cast
      linarith [hsplit]
    rw [harg, Int.floor_add_int]
  rcases lt_trichotomy f (1 / 2) with h | h | h
  · have g1 : ⌊f + 1 / 2⌋ = 0 := by
      rw [Int.floor_eq_iff]
      constructor <;> push_cast <;> linarith
    have g2 : ⌊1 / 2 - f⌋ = 0 := by
      rw [Int.floor_eq_iff]
      constructor <;> push_cast <;> linarith
    rw [if_neg h.ne, e1, e2, g1, g2]
    ring
  · have g1 : ⌊f + 1 / 2⌋ = 1 := by
      rw [Int.floor_eq_iff]
      constructor <;> push_cast <;> linarith
    have g2 : ⌊1 / 2 - f⌋ = 0 := by
      rw [Int.floor_eq_iff]
      constructor <;> push_cast <;> linarith
    rw [if_pos h, e1, e2, g1, g2]
    ring
  · have g1 : ⌊f + 1 / 2⌋ = 1 := by
      rw [Int.floor_eq_iff]
      constructor <;> push_cast <;> linarith
    have g2 : ⌊1 / 2 - f⌋ = -1 := by
      rw [Int.floor_eq_iff]
      constructor <;> push_cast <;> linarith
    rw [if_neg h.ne', e1, e2, g1, g2]
    ring

/-! ## Tokenizer lemmas -/

theorem dropWhile_head_false (q : Char → Bool) :
    ∀ (cs : List Char) (a : Char) (as : List Char),
      cs.dropWhile q = a :: as → q a = false := by
  intro cs
  induction cs with
  | nil => intro a as h; simp [List.dropWhile] at h
  | cons x xs ih =>
    intro a as h
    rw [List.dropWhile_cons] at h
    by_cases hqx : q x = true
    · rw [if_pos hqx] at h
      exact ih a as h
    · rw [if_neg hqx] at h
      obtain ⟨rfl, -⟩ := List.cons.inj h
      simpa using hqx

theorem tokenizeAux_mem (p : Char → Bool) (fuel : Nat) :
    ∀ cs : List Char, ∀ w ∈ tokenizeAux p fuel cs, w ≠ [] ∧ ∀ c ∈ w, p c = true := by
  induction fuel with
  | zero => intro cs w hw; simp [tokenizeAux] at hw
  | succ n ih =>
    intro cs w hw
    rw [tokenizeAux] at hw
    split at hw
    · simp at hw
    · rename_i hne
      rcases List.mem_cons.mp hw with hw | hw
      · subst hw
        have hrest : cs.dropWhile (fun c => !p c) ≠ [] := by
          intro h
          rw [h] at hne
          simp at hne
        obtain ⟨a, as, hcons⟩ := List.exists_cons_of_ne_nil hrest
        have hhead : p a = true := by
          have h2 := dropWhile_head_false (fun c => !p c) cs a as hcons
          simpa using h2
        constructor
        · rw [hcons, List.takeWhile_cons_of_pos hhead]
          simp
        · intro c hc
          exact List.mem_takeWhile_imp hc
      · exact ih _ w hw

theorem words_chars (t : String) :
    ∀ w ∈ words t, w.data ≠ [] ∧ ∀ c ∈ w.data, isWordChar c = true := by
  intro w hw
  unfold words tokens at hw
  simp only [List.mem_map] at hw
  obtain ⟨l, hl, rfl⟩ := hw
  exact tokenizeAux_mem isWordChar _ _ l hl

/-! ## Concrete feature values for the inputs used in the claims -/

theorem sentences_empty : sentences "" = [""] := by decide

theorem words_empty : words "" = [] := by decide

theorem sentenceLengths_empty : sentenceLengths "" = [1] := by decide

theorem sentenceVariance_empty : sentenceVariance "" = 0 := by
  norm_num [sentenceVariance, avgLen, lengthsDenom, sentenceLengths_empty]

theorem stdDev_empty : stdDev "" = 0 := by
  rw [stdDev, sentenceVariance_empty]
  norm_num

theorem ttr_empty : ttr "" = 0 := by
  simp [ttr, words_empty]

theorem markerCount_empty : markerCount "" = 0 := by decide

theorem markerDensity_empty : markerDensity "" = 0 := by
  simp [markerDensity, words_empty]

theorem aiScore_empty (r1 : ℝ) (h0 : 0 ≤ r1) : aiScore "" r1 = 98 := by
  unfold aiScore
  rw [stdDev_empty, ttr_empty, markerDensity_empty]
  push_cast
  have harg : (50 : ℝ) + (12 - 0) * 3 + (0.55 - 0) * 60 + 0 * 800 + (r1 * 10 - 5)
      = 114 + r1 * 10 := by ring
  rw [harg, min_eq_left (by linarith), max_eq_right (by norm_num)]

theorem sentenceVariance_ab : sentenceVariance "a b" = 0 := by
  norm_num [sentenceVariance, avgLen, lengthsDenom,
    show sentenceLengths "a b" = [2] from by decide]

theorem stdDev_ab : stdDev "a b" = 0 := by
  rw [stdDev, sentenceVariance_ab]
  norm_num

theorem ttr_ab : ttr "a b" = 1 := by
  norm_num [ttr, show uniqueWordCount "a b" = 2 from by decide,
    show (words "a b").length = 2 from by decide]

theorem markerDensity_ab : markerDensity "a b" = 0 := by
  norm_num [markerDensity, show markerCount "a b" = 0 from by decide,
    show (words "a b").length = 2 from by decide]

theorem aiScore_ab (r1 : ℝ) (h0 : 0 ≤ r1) (h1 : r1 < 1) :
    aiScore "a b" r1 = 54 + r1 * 10 := by
  unfold aiScore
  rw [stdDev_ab, ttr_ab, markerDensity_ab]
  push_cast
  have harg : (50 : ℝ) + (12 - 0) * 3 + (0.55 - 1) * 60 + 0 * 800 + (r1 * 10 - 5)
      = 54 + r1 * 10 := by ring
  rw [harg, min_eq_right (by linarith), max_eq_right (by linarith)]

set_option maxRecDepth 8000 in
theorem sentenceLengths_buzzText :
    sentenceLengths buzzText = [1, 1, 1, 1, 1, 1, 1, 1, 1, 1, 1, 1, 1, 1, 1, 1, 1, 1] := by
  decide

set_option maxRecDepth 8000 in
theorem markerCount_buzzText : markerCount buzzText = 18 := by decide

set_option maxRecDepth 8000 in
theorem uniqueWordCount_buzzText : uniqueWordCount buzzText = 1 := by decide

set_option maxRecDepth 8000 in
theorem wordsLength_buzzText : (words buzzText).length = 18 := by decide

theorem sentenceVariance_buzzText : sentenceVariance buzzText = 0 := by
  norm_num [sentenceVariance, avgLen, lengthsDenom, sentenceLengths_buzzText]

theorem stdDev_buzzText : stdDev buzzText = 0 := by
  rw [stdDev, sentenceVariance_buzzText]
  norm_num

theorem ttr_buzzText : ttr buzzText = 1 / 18 := by
  norm_num [ttr, uniqueWordCount_buzzText, wordsLength_buzzText]

theorem markerDensity_buzzText : markerDensity buzzText = 1 := by
  norm_num [markerDensity, markerCount_buzzText, wordsLength_buzzText]

theorem aiScore_buzzText (r1 : ℝ) (h0 : 0 ≤ r1) : aiScore buzzText r1 = 98 := by
  unfold aiScore
  rw [stdDev_buzzText, ttr_buzzText, markerDensity_buzzText]
  push_cast
  have harg : (50 : ℝ) + (12 - 0) * 3 + (0.55 - 1 / 18) * 60 + 1 * 800 + (r1 * 10 - 5)
      = 2732 / 3 + r1 * 10 := by ring
  rw [harg, min_eq_left (by linarith), max_eq_right (by norm_num)]

/-! ## Bridging lemmas for the flag list -/

theorem buzz_flag_ne_sentinel (s : String) :
    "High density of buzzwords (" ++ s ++ " found)"
      ≠ "No significant AI anomalies detected" := by
  intro h
  have h2 := congrArg (fun u => u.data.head?) h
  simp only [String.data_append, List.cons_append, List.head?_cons,
    Option.some.injEq] at h2
  exact absurd h2 (by decide)

/-! ## Claim theorems -/

/-- C1: for every input text and jitter draw in `[0, 1)`, the AI score is
exactly `clamp(50 + (12 - stdDev) * 3 + (0.55 - ttr) * 60 + density * 800 + j, 5, 98)`
for a jitter `j` lying in `[-5, 5]`, the features being computed from the
same text. -/
theorem claim_C1_score_formula (t : String) (r1 : ℝ) (h0 : 0 ≤ r1) (h1 : r1 < 1) :
    ∃ j : ℝ, -5 ≤ j ∧ j ≤ 5 ∧
      aiScore t r1 = max 5 (min 98
        (50 + (12 - stdDev t) * 3 + (0.55 - (ttr t : ℝ)) * 60
           + (markerDensity t : ℝ) * 800 + j)) ∧
      5 ≤ aiScore t r1 ∧ aiScore t r1 ≤ 98 :=
  ⟨r1 * 10 - 5, by linarith, by linarith, rfl, aiScore_ge t r1, aiScore_le t r1⟩

/-- Witness for C1 at the empty text with jitter draw 0. -/
theorem claim_C1_score_formula_witness :
    ∃ j : ℝ, -5 ≤ j ∧ j ≤ 5 ∧
      aiScore "" 0 = max 5 (min 98
        (50 + (12 - stdDev "") * 3 + (0.55 - (ttr "" : ℝ)) * 60
           + (markerDensity "" : ℝ) * 800 + j)) ∧
      5 ≤ aiScore "" 0 ∧ aiScore "" 0 ≤ 98 :=
  claim_C1_score_formula "" 0 (by norm_num) (by norm_num)

/-- C2 counterexample: on the text "a b" with jitter draw `3/20` the
unrounded score is `55.5`, and the two half-up-rounded percentages sum to
101, not 100. -/
theorem claim_C2_counterexample :
    (analyzeResume "a b" (3 / 20) 0).aiProbability
      + (analyzeResume "a b" (3 / 20) 0).humanProbability = 101 := by
  have ha : aiScore "a b" (3 / 20) = 111 / 2 := by
    rw [aiScore_ab (3 / 20) (by norm_num) (by norm_num)]
    norm_num
  simp only [analyzeResume, humanScore]
  rw [ha, jsRound_eq 56 _ (by norm_num) (by norm_num),
    jsRound_eq 45 _ (by norm_num) (by norm_num)]
  norm_num

/-- C2 amended: the two rounded percentages sum to 100 except when the
unrounded AI score has fractional part exactly one half, in which case
JavaScript half-up rounding makes them sum to 101. -/
theorem claim_C2_sum_amended (t : String) (r1 r2 : ℝ) :
    (analyzeResume t r1 r2).aiProbability + (analyzeResume t r1 r2).humanProbability
      = if Int.fract (aiScore t r1) = 1 / 2 then 101 else 100 := by
  simp only [analyzeResume, humanScore]
  exact jsRound_add_jsRound_sub (aiScore t r1)

/-- C3 counterexample: on the text "a b" with jitter draw `3/25` the
unrounded score is `55.2`, so the verdict is AI, yet the rounded
`aiProbability` is 55 and does not exceed 55. -/
theorem claim_C3_counterexample :
    (analyzeResume "a b" (3 / 25) 0).isAiGenerated = true ∧
    ¬ (analyzeResume "a b" (3 / 25) 0).aiProbability > 55 := by
  have ha : aiScore "a b" (3 / 25) = 276 / 5 := by
    rw [aiScore_ab (3 / 25) (by norm_num) (by norm_num)]
    norm_num
  constructor
  · simp only [analyzeResume, isAi]
    rw [ha, decide_eq_true_eq]
    norm_num
  · simp only [analyzeResume]
    rw [ha, jsRound_eq 55 _ (by norm_num) (by norm_num)]
    norm_num

/-- C3 amended: the verdict boolean compares the unrounded AI score with
55, which can disagree with `aiProbability > 55` when the score lies in
`(55, 55.5)`. -/
theorem claim_C3_amended (t : String) (r1 r2 : ℝ) :
    (analyzeResume t r1 r2).isAiGenerated = true ↔ aiScore t r1 > 55 := by
  simp only [analyzeResume, isAi, decide_eq_true_eq]

/-- Witness for the amended C3 at the empty text, whose score is 98. -/
theorem claim_C3_amended_witness : (analyzeResume "" 0 0).isAiGenerated = true :=
  (claim_C3_amended "" 0 0).mpr (by rw [aiScore_empty 0 le_rfl]; norm_num)

/-- C4: for every text, every jitter draw, and every perplexity draw in
`[0, 1)`, `aiProbability` lies in `[5, 98]` and all four
`linguisticAnalysis` fields lie in `[0, 100]`. -/
theorem claim_C4_output_bounds (t : String) (r1 r2 : ℝ) (h2a : 0 ≤ r2) (h2b : r2 < 1) :
    5 ≤ (analyzeResume t r1 r2).aiProbability ∧
    (analyzeResume t r1 r2).aiProbability ≤ 98 ∧
    0 ≤ (analyzeResume t r1 r2).linguisticAnalysis.perplexityScore ∧
    (analyzeResume t r1 r2).linguisticAnalysis.perplexityScore ≤ 100 ∧
    0 ≤ (analyzeResume t r1 r2).linguisticAnalysis.burstinessScore ∧
    (analyzeResume t r1 r2).linguisticAnalysis.burstinessScore ≤ 100 ∧
    0 ≤ (analyzeResume t r1 r2).linguisticAnalysis.vocabularyRichness ∧
    (analyzeResume t r1 r2).linguisticAnalysis.vocabularyRichness ≤ 100 ∧
    0 ≤ (analyzeResume t r1 r2).linguisticAnalysis.sentenceVariety ∧
    (analyzeResume t r1 r2).linguisticAnalysis.sentenceVariety ≤ 100 := by
  have hge := aiScore_ge t r1
  have hle := aiScore_le t r1
  have hvar : ((sentenceVariance t : ℚ) : ℝ) ≥ 0 := by
    exact_mod_cast sentenceVariance_nonneg t
  have hvoc0 : ((vocabScore t : ℚ) : ℝ) ≥ 0 := by
    exact_mod_cast le_min (by norm_num) (le_max_left 0 (ttr t * 160))
  have hvoc1 : ((vocabScore t : ℚ) : ℝ) ≤ 100 := by
    exact_mod_cast min_le_left (100 : ℚ) (max 0 (ttr t * 160))
  have hbur0 : (0 : ℝ) ≤ burstinessVal t :=
    le_min (by norm_num) (le_max_left 0 (stdDev t * 8))
  have hbur1 : burstinessVal t ≤ 100 := min_le_left _ _
  have hvy0 : (0 : ℝ) ≤ min 100 (((sentenceVariance t : ℚ) : ℝ) * 2) :=
    le_min (by norm_num) (by linarith)
  have hvy1 : min (100 : ℝ) (((sentenceVariance t : ℚ) : ℝ) * 2) ≤ 100 := min_le_left _ _
  simp only [analyzeResume, humanScore]
  refine ⟨le_jsRound 5 _ (by push_cast; linarith),
    jsRound_le 98 _ (by push_cast; linarith),
    le_jsRound 0 _ (by push_cast; linarith),
    jsRound_le 100 _ (by push_cast; linarith),
    le_jsRound 0 _ (by push_cast; linarith),
    jsRound_le 100 _ (by push_cast; linarith),
    le_jsRound 0 _ (by push_cast; linarith),
    jsRound_le 100 _ (by push_cast; linarith),
    le_jsRound 0 _ (by push_cast; linarith),
    jsRound_le 100 _ (by push_cast; linarith)⟩

/-- Witness for C4 at the empty text with both draws 0. -/
theorem claim_C4_output_bounds_witness :
    5 ≤ (analyzeResume "" 0 0).aiProbability ∧
    (analyzeResume "" 0 0).aiProbability ≤ 98 ∧
    0 ≤ (analyzeResume "" 0 0).linguisticAnalysis.perplexityScore ∧
    (analyzeResume "" 0 0).linguisticAnalysis.perplexityScore ≤ 100 ∧
    0 ≤ (analyzeResume "" 0 0).linguisticAnalysis.burstinessScore ∧
    (analyzeResume "" 0 0).linguisticAnalysis.burstinessScore ≤ 100 ∧
    0 ≤ (analyzeResume "" 0 0).linguisticAnalysis.vocabularyRichness ∧
    (analyzeResume "" 0 0).linguisticAnalysis.vocabularyRichness ≤ 100 ∧
    0 ≤ (analyzeResume "" 0 0).linguisticAnalysis.sentenceVariety ∧
    (analyzeResume "" 0 0).linguisticAnalysis.sentenceVariety ≤ 100 :=
  claim_C4_output_bounds "" 0 0 (by norm_num) (by norm_num)

/-- C5: the empty string is processed without any partial value: the word
list is empty, the single degenerate sentence is the empty string, the
standard deviation is 0, the type-token ratio is produced by the guarded
branch, and every field of the returned record is present and within its
documented range. -/
theorem claim_C5_empty_input (r1 r2 : ℝ) (h1a : 0 ≤ r1) (h1b : r1 < 1)
    (h2a : 0 ≤ r2) (h2b : r2 < 1) :
    words "" = [] ∧
    sentences "" = [""] ∧
    stdDev "" = 0 ∧
    ttr "" = 0 ∧
    (analyzeResume "" r1 r2).aiProbability = 98 ∧
    (analyzeResume "" r1 r2).humanProbability = 2 ∧
    (analyzeResume "" r1 r2).isAiGenerated = true ∧
    (analyzeResume "" r1 r2).flags
      = ["Monotonic sentence structure (Low Burstiness)", "Repetitive vocabulary usage"] ∧
    2 ≤ (analyzeResume "" r1 r2).linguisticAnalysis.perplexityScore ∧
    (analyzeResume "" r1 r2).linguisticAnalysis.perplexityScore ≤ 22 ∧
    (analyzeResume "" r1 r2).linguisticAnalysis.burstinessScore = 0 ∧
    (analyzeResume "" r1 r2).linguisticAnalysis.vocabularyRichness = 0 ∧
    (analyzeResume "" r1 r2).linguisticAnalysis.sentenceVariety = 0 := by
  have ha := aiScore_empty r1 h1a
  have hvoc : vocabScore "" = 0 := by
    unfold vocabScore
    rw [ttr_empty]
    norm_num
  refine ⟨words_empty, sentences_empty, stdDev_empty, ttr_empty,
    ?_, ?_, ?_, ?_, ?_, ?_, ?_, ?_, ?_⟩
  · simp only [analyzeResume]
    rw [ha]
    exact jsRound_eq 98 _ (by norm_num) (by norm_num)
  · simp only [analyzeResume, humanScore]
    rw [ha]
    exact jsRound_eq 2 _ (by norm_num) (by norm_num)
  · simp only [analyzeResume, isAi]
    rw [ha, decide_eq_true_eq]
    norm_num
  · have c1 : stdDev "" < 6 := by
      rw [stdDev_empty]
      norm_num
    have c2 : ¬ markerCount "" > 2 := by
      rw [markerCount_empty]
      norm_num
    have c3 : ttr "" < 0.4 := by
      rw [ttr_empty]
      norm_num
    simp only [analyzeResume]
    simp [flags, c1, c2, c3]
  · simp only [analyzeResume, humanScore]
    rw [ha]
    exact le_jsRound 2 _ (by push_cast; linarith)
  · simp only [analyzeResume, humanScore]
    rw [ha]
    exact jsRound_le 22 _ (by push_cast; linarith)
  · simp only [analyzeResume, burstinessVal]
    rw [stdDev_empty, show max (0 : ℝ) (0 * 8) = 0 from by norm_num,
      show min (100 : ℝ) 0 = 0 from by norm_num]
    exact jsRound_eq 0 _ (by norm_num) (by norm_num)
  · simp only [analyzeResume]
    rw [hvoc]
    exact jsRound_eq 0 _ (by norm_num) (by norm_num)
  · simp only [analyzeResume]
    rw [sentenceVariance_empty, show min (100 : ℝ) (((0 : ℚ) : ℝ) * 2) = 0 from by norm_num]
    exact jsRound_eq 0 _ (by norm_num) (by norm_num)

/-- Witness for C5 with both draws 0. -/
theorem claim_C5_empty_input_witness :
    words "" = [] ∧
    sentences "" = [""] ∧
    stdDev "" = 0 ∧
    ttr "" = 0 ∧
    (analyzeResume "" 0 0).aiProbability = 98 ∧
    (analyzeResume "" 0 0).humanProbability = 2 ∧
    (analyzeResume "" 0 0).isAiGenerated = true ∧
    (analyzeResume "" 0 0).flags
      = ["Monotonic sentence structure (Low Burstiness)", "Repetitive vocabulary usage"] ∧
    2 ≤ (analyzeResume "" 0 0).linguisticAnalysis.perplexityScore ∧
    (analyzeResume "" 0 0).linguisticAnalysis.perplexityScore ≤ 22 ∧
    (analyzeResume "" 0 0).linguisticAnalysis.burstinessScore = 0 ∧
    (analyzeResume "" 0 0).linguisticAnalysis.vocabularyRichness = 0 ∧
    (analyzeResume "" 0 0).linguisticAnalysis.sentenceVariety = 0 :=
  claim_C5_empty_input 0 0 (by norm_num) (by norm_num) (by norm_num) (by norm_num)

/-- C6: on 18 copies of "leveraged." the buzzword count is 18, the
type-token ratio is `1/18`, the score is pinned at the clamp ceiling 98
for every jitter draw in `[0, 1)`, the verdict is AI, and the flag list
contains both the interpolated buzzword-density entry and the
repetitive-vocabulary entry. -/
theorem claim_C6_buzzword_example (r1 r2 : ℝ) (h0 : 0 ≤ r1) (h1 : r1 < 1) :
    markerCount buzzText = 18 ∧
    ttr buzzText = 1 / 18 ∧
    aiScore buzzText r1 = 98 ∧
    (analyzeResume buzzText r1 r2).aiProbability = 98 ∧
    (analyzeResume buzzText r1 r2).isAiGenerated = true ∧
    "High density of buzzwords (18 found)" ∈ (analyzeResume buzzText r1 r2).flags ∧
    "Repetitive vocabulary usage" ∈ (analyzeResume buzzText r1 r2).flags := by
  have ha := aiScore_buzzText r1 h0
  have c1 : stdDev buzzText < 6 := by
    rw [stdDev_buzzText]
    norm_num
  have c2 : markerCount buzzText > 2 := by
    rw [markerCount_buzzText]
    norm_num
  have c3 : ttr buzzText < 0.4 := by
    rw [ttr_buzzText]
    norm_num
  have hstr : "High density of buzzwords (" ++ toString (markerCount buzzText) ++ " found)"
      = "High density of buzzwords (18 found)" := by
    rw [markerCount_buzzText]
    decide
  refine ⟨markerCount_buzzText, ttr_buzzText, ha, ?_, ?_, ?_, ?_⟩
  · simp only [analyzeResume]
    rw [ha]
    exact jsRound_eq 98 _ (by norm_num) (by norm_num)
  · simp only [analyzeResume, isAi]
    rw [ha, decide_eq_true_eq]
    norm_num
  · simp only [analyzeResume]
    simp [flags, c1, c2, c3, hstr]
  · simp only [analyzeResume]
    simp [flags, c1, c2, c3]

/-- Witness for C6 with both draws 0. -/
theorem claim_C6_buzzword_example_witness :
    markerCount buzzText = 18 ∧
    ttr buzzText = 1 / 18 ∧
    aiScore buzzText 0 = 98 ∧
    (analyzeResume buzzText 0 0).aiProbability = 98 ∧
    (analyzeResume buzzText 0 0).isAiGenerated = true ∧
    "High density of buzzwords (18 found)" ∈ (analyzeResume buzzText 0 0).flags ∧
    "Repetitive vocabulary usage" ∈ (analyzeResume buzzText 0 0).flags :=
  claim_C6_buzzword_example 0 0 (by norm_num) (by norm_num)

/-- C7: the flag list is never empty; it is the sentinel exactly when none
of the three threshold conditions holds; and when some condition holds it
is precisely the concatenation, in fixed order, of the matching entries,
and in particular is not the sentinel list. -/
theorem claim_C7_flags (t : String) :
    flags t ≠ [] ∧
    (¬ stdDev t < 6 → ¬ markerCount t > 2 → ¬ ttr t < 0.4 →
      flags t = ["No significant AI anomalies detected"]) ∧
    ((stdDev t < 6 ∨ markerCount t > 2 ∨ ttr t < 0.4) →
      flags t =
        (if stdDev t < 6 then ["Monotonic sentence structure (Low Burstiness)"] else [])
          ++ (if markerCount t > 2 then
                ["High density of buzzwords (" ++ toString (markerCount t) ++ " found)"]
              else [])
          ++ (if ttr t < 0.4 then ["Repetitive vocabulary usage"] else []) ∧
      flags t ≠ ["No significant AI anomalies detected"]) := by
  by_cases c1 : stdDev t < 6 <;> by_cases c2 : markerCount t > 2 <;>
    by_cases c3 : ttr t < 0.4 <;>
    simp [flags, c1, c2, c3, buzz_flag_ne_sentinel]

/-- Witness for C7 at the empty text: two conditions hold, so the flag
list is the two matching entries and not the sentinel. -/
theorem claim_C7_flags_witness :
    flags "" ≠ [] ∧
    flags "" = ["Monotonic sentence structure (Low Burstiness)", "Repetitive vocabulary usage"] := by
  have c1 : stdDev "" < 6 := by
    rw [stdDev_empty]
    norm_num
  have c2 : ¬ markerCount "" > 2 := by
    rw [markerCount_empty]
    norm_num
  have c3 : ttr "" < 0.4 := by
    rw [ttr_empty]
    norm_num
  have h := claim_C7_flags ""
  refine ⟨h.1, ?_⟩
  rw [(h.2.2 (Or.inl c1)).1]
  simp [c1, c2, c3]

/-- C8 counterexample: two runs on the same text with the same jitter
draw but different perplexity draws return different records, so one
draw does not determine the whole result. -/
theorem claim_C8_counterexample :
    analyzeResume "" 0 0 ≠ analyzeResume "" 0 (1 / 2) := by
  intro h
  have hp := congrArg (fun R => R.linguisticAnalysis.perplexityScore) h
  simp only [analyzeResume, humanScore] at hp
  rw [aiScore_empty 0 le_rfl, jsRound_eq 2 _ (by norm_num) (by norm_num),
    jsRound_eq 12 _ (by norm_num) (by norm_num)] at hp
  exact absurd hp (by decide)

/-- C8 amended: each call is a pure function of the text and its two
random draws: every output field other than the perplexity proxy is
determined by the text and the jitter draw alone, and fixing both draws
fixes the entire record. -/
theorem claim_C8_two_draws_amended (t : String) (r1 r2 r2' : ℝ) :
    coreOutput (analyzeResume t r1 r2) = coreOutput (analyzeResume t r1 r2') ∧
    (r2 = r2' → analyzeResume t r1 r2 = analyzeResume t r1 r2') := by
  refine ⟨rfl, fun h => ?_⟩
  rw [h]

/-- Witness for the amended C8 at concrete draws. -/
theorem claim_C8_two_draws_amended_witness :
    coreOutput (analyzeResume "" 0 (1 / 2)) = coreOutput (analyzeResume "" 0 (3 / 4)) ∧
    analyzeResume "" 0 (1 / 2) = analyzeResume "" 0 (1 / 2) :=
  ⟨(claim_C8_two_draws_amended "" 0 (1 / 2) (3 / 4)).1,
   (claim_C8_two_draws_amended "" 0 (1 / 2) (1 / 2)).2 rfl⟩

/-- C9 counterexample: the text "." contains a terminator, so per the
claim the segmentation should be the (empty) list of matches, but the
code's null-fallback returns the whole text as one sentence. -/
theorem claim_C9_counterexample :
    specSegmentation "." = [] ∧ sentences "." = ["."] ∧
    specSegmentation "." ≠ sentences "." := by decide

/-- C9 amended: the segmentation is the list of maximal
non-terminator-run-plus-terminators matches whenever that list is
nonempty; when it is empty — in particular whenever no terminator occurs,
but also for terminator-only texts — the whole text is the single
sentence. -/
theorem claim_C9_segmentation_amended (t : String) :
    (sentencesList t ≠ [] → sentences t = sentencesList t) ∧
    (sentencesList t = [] → sentences t = [t]) ∧
    ((∀ c ∈ t.data, ¬ isTerminator c = true) → sentences t = [t]) := by
  refine ⟨fun h => ?_, fun h => ?_, fun h => ?_⟩
  · simp [sentences, h]
  · simp [sentences, h]
  · have hnil : sentencesList t = [] := by
      unfold sentencesList
      rcases hd : t.data with - | ⟨a, as⟩
      · simp [sentencesAux]
      · have hall : ∀ c ∈ a :: as, (!isTerminator c) = true := by
          intro c hc
          have := h c (hd ▸ hc)
          simpa using this
        have h2 : ((a :: as).dropWhile isTerminator).dropWhile
            (fun c => !isTerminator c) = [] := by
          apply List.dropWhile_eq_nil_iff.mpr
          intro x hx
          exact hall x ((List.dropWhile_sublist _).subset hx)
        simp [sentencesAux, h2]
    simp [sentences, hnil]

/-- Witness for the amended C9 at a terminator-free text. -/
theorem claim_C9_segmentation_amended_witness :
    sentences "abc" = ["abc"] ∧ sentencesList "abc" = [] :=
  ⟨(claim_C9_segmentation_amended "abc").2.2 (by decide), by decide⟩

/-- C10: word tokens consist only of `\w` characters, so the two
multi-token buzzword entries can never match, and the marker count equals
the count against the 16 single-token entries alone. -/
theorem claim_C10_dead_entries (t : String) :
    (∀ w ∈ words t, w ≠ "proven track record" ∧ w ≠ "results-driven") ∧
    markerCount t
      = ((words t).filter (fun w => decide (w ∈ aiMarkersSingleToken))).length := by
  have hne : ∀ w ∈ words t, w ≠ "proven track record" ∧ w ≠ "results-driven" := by
    intro w hw
    obtain ⟨-, hchars⟩ := words_chars t w hw
    constructor
    · intro heq
      subst heq
      exact absurd (hchars ' ' (by decide)) (by decide)
    · intro heq
      subst heq
      exact absurd (hchars '-' (by decide)) (by decide)
  refine ⟨hne, ?_⟩
  unfold markerCount
  congr 1
  apply List.filter_congr
  intro w hw
  obtain ⟨h1, h2⟩ := hne w hw
  rw [decide_eq_decide]
  simp only [aiMarkers, aiMarkersSingleToken, List.mem_cons, List.not_mem_nil, or_false]
  tauto

/-- Witness for C10: a text spelling out both dead entries still has
marker count 0 via the 16-entry list. -/
theorem claim_C10_dead_entries_witness :
    markerCount "results-driven proven track record" = 0 := by
  rw [(claim_C10_dead_entries "results-driven proven track record").2]
  decide

end ResumeAI
